import Mathlib

set_option linter.unusedVariables false

/-!
# A verification development for the odin-data frame decode layer

This file gives a shallow embedding, in Lean, of the frame-decoder and
buffer-management layer of the odin-data repository (the base class
`FrameDecoder` in `frameReceiver/src/FrameDecoder.cpp`, the concrete decoder
`DummyTCPFrameDecoder`, the `BloscPlugin` compression stage, and the
plugin-registration machinery), together with theorems settling the
behavioural claims made about that code.

Mutating C++ member functions are embedded as pure functions from the decoder
state to a new decoder state (plus any outputs); `std::queue` becomes a Lean
list whose head is the queue front; `std::map` becomes an association list.
Logging calls have no observable effect on the modelled state and are omitted.
-/

namespace FrameReceiver

/-- Modelled from the spec: default configuration values held in
`FrameReceiverDefaults.h`, which is not part of the source excerpt.  The spec
says only that "defaults apply if absent"; the claims settled below do not
depend on the particular values chosen here. -/
def default_enable_packet_logging : Bool := false

/-- Modelled from the spec: default frame timeout in milliseconds from
`FrameReceiverDefaults.h` (absent from the excerpt); the particular value is
immaterial to the claims. -/
def default_frame_timeout_ms : Nat := 1000

/-- Modelled from the spec: one entry of the FrameBufferMap, "(buffer id,
arrival timestamp, received-packet bitmap/count)".  The concrete container
type lives in `FrameDecoder.h`, which is not part of the excerpt. -/
structure BufferMapEntry where
  buffer_id : Int
  arrival_ts_ms : Nat
  packets_received : Nat
deriving Repr, DecidableEq

/-- The state of the abstract `FrameDecoder` base class
(`frameReceiver/src/FrameDecoder.cpp`).  `empty_buffer_queue_` embeds the
`std::queue<int> EmptyBufferQueue` with the list head as the queue front;
`frame_buffer_map_` embeds the FrameBufferMap as an association list from
frame identity to its entry.  The logger members are omitted (logging has no
effect on the modelled state); the buffer manager and ready callback are
abstracted to opaque handles, since only their identity is observable here. -/
structure FrameDecoder where
  enable_packet_logging_ : Bool
  frame_timeout_ms_ : Nat
  frames_timedout_ : Nat
  empty_buffer_queue_ : List Int
  frame_buffer_map_ : List (Int × BufferMapEntry)
  buffer_manager_ : Option Nat
  ready_callback_ : Option Nat
deriving Repr, DecidableEq

/-- The `FrameDecoder()` constructor: stores the default configuration values
and zeroes the timed-out counter; the containers start empty and the buffer
manager / callback pointers start null. -/
def FrameDecoder.construct : FrameDecoder :=
  { enable_packet_logging_ := default_enable_packet_logging
    frame_timeout_ms_ := default_frame_timeout_ms
    frames_timedout_ := 0
    empty_buffer_queue_ := []
    frame_buffer_map_ := []
    buffer_manager_ := none
    ready_callback_ := none }

/-- Modelled from the spec: the value carried by one named parameter of an
`IpcMessage` (the `IpcMessage` class itself is not part of the excerpt; the
spec describes "a structured parameter message with named key/value pairs"). -/
inductive ParamValue where
  | boolVal (b : Bool)
  | natVal (n : Nat)
  | strVal (s : String)
deriving Repr, DecidableEq

/-- Modelled from the spec: an `IpcMessage` parameter block, embedded as an
association list of named key/value pairs. -/
structure IpcMessage where
  params : List (String × ParamValue)
deriving Repr, DecidableEq

/-- Modelled from the spec: `IpcMessage::get_param<bool>(name, default)` —
returns the parameter's value when the key is present (with a boolean value),
and the supplied default otherwise ("missing keys keep current values"). -/
def IpcMessage.get_param_bool (msg : IpcMessage) (key : String) (dflt : Bool) : Bool :=
  match msg.params.lookup key with
  | some (ParamValue.boolVal b) => b
  | _ => dflt

/-- Modelled from the spec: `IpcMessage::get_param<unsigned int>(name,
default)` — the parameter's value when present, the default otherwise. -/
def IpcMessage.get_param_nat (msg : IpcMessage) (key : String) (dflt : Nat) : Nat :=
  match msg.params.lookup key with
  | some (ParamValue.natVal n) => n
  | _ => dflt

/-- Modelled from the spec: `IpcMessage::set_param(name, value)` — stores the
value under the key, replacing any existing entry for that key. -/
def IpcMessage.set_param (msg : IpcMessage) (key : String) (v : ParamValue) : IpcMessage :=
  ⟨(msg.params.filter (fun p => p.1 != key)) ++ [(key, v)]⟩

/-- Configuration key for the packet-logging flag (named in
`FrameReceiverDefaults.h`, outside the excerpt; the key string itself is
immaterial to the claims, only its distinctness from the other key). -/
def CONFIG_DECODER_ENABLE_PACKET_LOGGING : String := "enable_packet_logging"

/-- Configuration key for the frame timeout. -/
def CONFIG_DECODER_FRAME_TIMEOUT_MS : String := "frame_timeout_ms"

/-- `FrameDecoder::init`: reads `enable_packet_logging` and
`frame_timeout_ms` from the configuration message, keeping the current value
of each setting as the default when its key is absent.  The logger setup has
no effect on the modelled state. -/
def FrameDecoder.init (d : FrameDecoder) (config_msg : IpcMessage) : FrameDecoder :=
  { d with
    enable_packet_logging_ :=
      config_msg.get_param_bool CONFIG_DECODER_ENABLE_PACKET_LOGGING d.enable_packet_logging_
    frame_timeout_ms_ :=
      config_msg.get_param_nat CONFIG_DECODER_FRAME_TIMEOUT_MS d.frame_timeout_ms_ }

/-- `FrameDecoder::request_configuration`: populates the reply message with
the decoder's two base configuration parameters under the given parameter
prefix (and nothing else). -/
def FrameDecoder.request_configuration (d : FrameDecoder) (pfx : String)
    (config_reply : IpcMessage) : IpcMessage :=
  (config_reply.set_param (pfx ++ CONFIG_DECODER_ENABLE_PACKET_LOGGING)
      (ParamValue.boolVal d.enable_packet_logging_)).set_param
    (pfx ++ CONFIG_DECODER_FRAME_TIMEOUT_MS) (ParamValue.natVal d.frame_timeout_ms_)

/-- `FrameDecoder::register_buffer_manager`: stores the buffer manager
handle. -/
def FrameDecoder.register_buffer_manager (d : FrameDecoder) (buffer_manager : Nat) :
    FrameDecoder :=
  { d with buffer_manager_ := some buffer_manager }

/-- `FrameDecoder::register_frame_ready_callback`: stores the callback
handle. -/
def FrameDecoder.register_frame_ready_callback (d : FrameDecoder) (callback : Nat) :
    FrameDecoder :=
  { d with ready_callback_ := some callback }

/-- `FrameDecoder::push_empty_buffer`: adds the buffer id to the tail of the
empty buffer queue. -/
def FrameDecoder.push_empty_buffer (d : FrameDecoder) (buffer_id : Int) : FrameDecoder :=
  { d with empty_buffer_queue_ := d.empty_buffer_queue_ ++ [buffer_id] }

/-- `FrameDecoder::get_num_empty_buffers`: the size of the empty buffer
queue. -/
def FrameDecoder.get_num_empty_buffers (d : FrameDecoder) : Nat :=
  d.empty_buffer_queue_.length

/-- `FrameDecoder::get_num_mapped_buffers`: the size of the frame buffer
map. -/
def FrameDecoder.get_num_mapped_buffers (d : FrameDecoder) : Nat :=
  d.frame_buffer_map_.length

/-- `FrameDecoder::get_frame_timeout_ms`. -/
def FrameDecoder.get_frame_timeout_ms (d : FrameDecoder) : Nat :=
  d.frame_timeout_ms_

/-- `FrameDecoder::get_num_frames_timedout`. -/
def FrameDecoder.get_num_frames_timedout (d : FrameDecoder) : Nat :=
  d.frames_timedout_

/-- `FrameDecoder::drop_all_buffers`: when the empty buffer queue is
non-empty it is swapped with a fresh (empty) queue, and when the frame buffer
map is non-empty it is swapped with a fresh (empty) map; the log statements
are omitted. -/
def FrameDecoder.drop_all_buffers (d : FrameDecoder) : FrameDecoder :=
  let d1 :=
    if d.empty_buffer_queue_.isEmpty then d
    else { d with empty_buffer_queue_ := [] }
  if d1.frame_buffer_map_.isEmpty then d1
  else { d1 with frame_buffer_map_ := [] }

/-- Modelled from the spec: acquiring a slot for a new frame pops the front
of the EmptyBufferQueue ("Popped when decoding starts a new frame"); the pop
itself happens in transport-specific decoders that are not part of the
excerpt.  Returns the popped id (none when the queue is empty, the
backpressure signal) together with the new state. -/
def FrameDecoder.pop_empty_buffer (d : FrameDecoder) : Option Int × FrameDecoder :=
  match d.empty_buffer_queue_ with
  | [] => (none, d)
  | b :: rest => (some b, { d with empty_buffer_queue_ := rest })

/-- Push each id of the list, in order, onto the empty buffer queue by
successive `push_empty_buffer` calls. -/
def FrameDecoder.push_all (d : FrameDecoder) (ids : List Int) : FrameDecoder :=
  ids.foldl FrameDecoder.push_empty_buffer d

/-- Pop the empty buffer queue `n` times, collecting the returned ids in
order; stops early if the queue empties. -/
def FrameDecoder.popN (d : FrameDecoder) : Nat → List Int
  | 0 => []
  | n + 1 =>
    match FrameDecoder.pop_empty_buffer d with
    | (none, _) => []
    | (some b, d2) => b :: FrameDecoder.popN d2 n

/-- Modelled from the spec: the `FrameReceiveState` enumeration returned by
`process_message` is declared in `FrameDecoder.h`, which is absent from the
excerpt; the spec lists the four outcomes incomplete / complete /
complete_missing_frames / invalid, and `FrameReceiveStateComplete` is the
constant named in `DummyTCPFrameDecoder.cpp`. -/
inductive FrameReceiveState where
  | FrameReceiveStateIncomplete
  | FrameReceiveStateComplete
  | FrameReceiveStateCompleteMissingFrames
  | FrameReceiveStateInvalid
deriving Repr, DecidableEq

/-- State of the concrete `DummyTCPFrameDecoder`
(`DummyTCPFrameDecoder.cpp`): the inherited base-class state plus the
current frame number and current frame buffer id members.  The two raw byte
buffers only stage incoming bytes and carry no decoder logic, so they are
omitted from the state. -/
structure DummyTCPFrameDecoder extends FrameDecoder where
  current_frame_number_ : Int
  current_frame_buffer_id_ : Int
deriving Repr, DecidableEq

/-- `DummyTCPFrameDecoder::DummyTCPFrameDecoder()`: base-class construction
followed by setting the current frame number and buffer id to -1. -/
def DummyTCPFrameDecoder.construct : DummyTCPFrameDecoder :=
  { FrameDecoder.construct with
    current_frame_number_ := -1
    current_frame_buffer_id_ := -1 }

/-- `DummyTCPFrameDecoder::process_message`: the body unconditionally
returns `FrameReceiveStateComplete` and touches no decoder state. -/
def DummyTCPFrameDecoder.process_message (d : DummyTCPFrameDecoder)
    (bytes_received : Nat) : FrameReceiveState :=
  FrameReceiveState.FrameReceiveStateComplete

/-- `DummyTCPFrameDecoder::monitor_buffers`: the body is empty, so the
decoder state is unchanged and no frame is handed to the ready callback.
The second component is the list of frame ids released to the callback by
the call, always empty here. -/
def DummyTCPFrameDecoder.monitor_buffers (d : DummyTCPFrameDecoder) :
    DummyTCPFrameDecoder × List Int :=
  (d, [])

/-- A concrete dummy-decoder state holding one mapped frame buffer (frame 7
in buffer 3, arrived at time 0 ms) whose age at observation time 1000 ms
exceeds the configured 100 ms frame timeout. -/
def timed_out_decoder_example : DummyTCPFrameDecoder :=
  { enable_packet_logging_ := false
    frame_timeout_ms_ := 100
    frames_timedout_ := 0
    empty_buffer_queue_ := []
    frame_buffer_map_ := [(7, ⟨3, 0, 1⟩)]
    buffer_manager_ := some 0
    ready_callback_ := some 0
    current_frame_number_ := 7
    current_frame_buffer_id_ := 3 }

/-- A concrete dummy-decoder state in which frame 5 has already been
completed: it is recorded as the current frame number and is no longer in
the frame buffer map. -/
def completed_frame_decoder_example : DummyTCPFrameDecoder :=
  { enable_packet_logging_ := false
    frame_timeout_ms_ := 100
    frames_timedout_ := 0
    empty_buffer_queue_ := [4]
    frame_buffer_map_ := []
    buffer_manager_ := some 0
    ready_callback_ := some 0
    current_frame_number_ := 5
    current_frame_buffer_id_ := 3 }

/-- A concrete base-decoder state with distinctive counter values: 7 frames
timed out, 3 empty buffers queued and 1 buffer mapped. -/
def c4_decoder_example : FrameDecoder :=
  { enable_packet_logging_ := true
    frame_timeout_ms_ := 200
    frames_timedout_ := 7
    empty_buffer_queue_ := [1, 2, 3]
    frame_buffer_map_ := [(9, ⟨4, 0, 1⟩)]
    buffer_manager_ := none
    ready_callback_ := none }

end FrameReceiver

namespace OdinData

/-- Modelled from the spec: the error raised by the plugin registry when an
unknown plugin name is requested ("lookup of an unknown name is a
configuration error, not a crash"). -/
inductive PluginError where
  | UnknownPluginName (name : String)
deriving Repr, DecidableEq

/-- Modelled from the spec: the name-keyed factory table populated by the
`REGISTER(...)` macro expansions seen in `DummyTCPFrameDecoderLib.cpp` and
`BloscPlugin.h` (`ClassLoader.h` itself is absent from the excerpt): a list
of (name, factory) entries looked up by name. -/
structure PluginRegistry (Stage : Type) where
  entries : List (String × (Unit → Stage))

/-- Modelled from the spec: `register(name, factory)`, performed at
process/library load time by each `REGISTER` macro expansion. -/
def PluginRegistry.register {Stage : Type} (r : PluginRegistry Stage)
    (name : String) (factory : Unit → Stage) : PluginRegistry Stage :=
  ⟨r.entries ++ [(name, factory)]⟩

/-- Modelled from the spec: `create(name)` — fails with `UnknownPluginName`
when the name is absent from the registry, otherwise returns a fresh stage
instance produced by the registered factory; the registry contents are
returned alongside, unchanged in either case. -/
def PluginRegistry.create {Stage : Type} (r : PluginRegistry Stage)
    (name : String) : Except PluginError Stage × PluginRegistry Stage :=
  match r.entries.lookup name with
  | some factory => (Except.ok (factory ()), r)
  | none => (Except.error (PluginError.UnknownPluginName name), r)

/-- A concrete registry holding the two plugin registrations visible in the
source, with stages abstracted to numeric instances. -/
def registry_example : PluginRegistry Nat :=
  ⟨[("DummyTCPFrameDecoder", fun _ => 0), ("BloscPlugin", fun _ => 1)]⟩

end OdinData

namespace FrameProcessor

/-- The `BloscCompressionSettings` struct (`BloscPlugin.h`). -/
structure BloscCompressionSettings where
  compression_level : Int
  shuffle : Nat
  type_size : Nat
  uncompressed_size : Nat
  blosc_compressor : Nat
deriving Repr, DecidableEq

/-- The settings-related state of `BloscPlugin` (`BloscPlugin.h`): the
current acquisition id, the compression settings in use, and the settings
commanded for the next acquisition. -/
structure BloscPlugin where
  current_acquisition_ : String
  compression_settings_ : BloscCompressionSettings
  commanded_compression_settings_ : BloscCompressionSettings
deriving Repr, DecidableEq

/-- Modelled from the spec: `BloscPlugin::update_compression_settings`
(declared in `BloscPlugin.h`; its body in `BloscPlugin.cpp` is absent from
the excerpt).  Settings changes "only take effect at the next acquisition
boundary (acquisition-id change)": when the frame's acquisition id differs
from the current one, the commanded settings become current and the new id
is recorded; otherwise nothing changes. -/
def BloscPlugin.update_compression_settings (p : BloscPlugin)
    (acquisition_id : String) : BloscPlugin :=
  if acquisition_id ≠ p.current_acquisition_ then
    { p with
      compression_settings_ := p.commanded_compression_settings_
      current_acquisition_ := acquisition_id }
  else p

/-- Modelled from the spec: a settings change submitted via a parameter
message during an acquisition is "staged as commanded" — it only writes the
commanded settings. -/
def BloscPlugin.configure (p : BloscPlugin) (s : BloscCompressionSettings) :
    BloscPlugin :=
  { p with commanded_compression_settings_ := s }

/-- Modelled from the spec: `BloscPlugin::process_frame` applies
`update_compression_settings` for the frame's acquisition id, then
compresses the frame with the (then) current settings.  Returns the updated
plugin state and the settings used for this frame. -/
def BloscPlugin.process_frame (p : BloscPlugin) (acquisition_id : String) :
    BloscPlugin × BloscCompressionSettings :=
  let p2 := p.update_compression_settings acquisition_id
  (p2, p2.compression_settings_)

/-- One event of the plugin's control/data interleaving: a commanded
settings change arriving via a parameter message, or a frame arriving with
its acquisition id. -/
inductive BloscEvent where
  | command (s : BloscCompressionSettings)
  | frame (acquisition_id : String)

/-- Run a sequence of events through the plugin, recording for every frame
its acquisition id and the settings used to compress it. -/
def BloscPlugin.run (p : BloscPlugin) :
    List BloscEvent → List (String × BloscCompressionSettings)
  | [] => []
  | BloscEvent.command s :: rest => (p.configure s).run rest
  | BloscEvent.frame a :: rest =>
    (a, (p.process_frame a).2) :: (p.process_frame a).1.run rest

/-- Adjacent frames of the output trace that belong to the same acquisition
were compressed with equal settings; since an acquisition is one contiguous
run of frames with one id, this means no frame within an acquisition sees
mixed settings. -/
def same_acquisition_same_settings :
    List (String × BloscCompressionSettings) → Prop
  | [] => True
  | [_] => True
  | (a1, s1) :: (a2, s2) :: rest =>
    (a1 = a2 → s1 = s2) ∧ same_acquisition_same_settings ((a2, s2) :: rest)

/-- Example compression settings. -/
def blosc_settings_a : BloscCompressionSettings := ⟨5, 1, 2, 1024, 0⟩

/-- Alternative example compression settings. -/
def blosc_settings_b : BloscCompressionSettings := ⟨9, 0, 4, 2048, 1⟩

/-- A concrete plugin state in acquisition "acq_1" with settings
`blosc_settings_a` both current and commanded. -/
def blosc_plugin_example : BloscPlugin := ⟨"acq_1", blosc_settings_a, blosc_settings_a⟩

/-- A concrete event interleaving: a settings change is commanded in the
middle of acquisition "acq_1", and acquisition "acq_2" starts afterwards. -/
def blosc_events_example : List BloscEvent :=
  [BloscEvent.frame "acq_1", BloscEvent.command blosc_settings_b,
   BloscEvent.frame "acq_1", BloscEvent.frame "acq_2"]

end FrameProcessor

section Claims

open FrameReceiver OdinData FrameProcessor

/-- Claim C1: for every prior decoder state, after `drop_all_buffers()` both
`get_num_empty_buffers()` and `get_num_mapped_buffers()` return 0. -/
theorem c1_drop_all_buffers_clears_counts (d : FrameDecoder) :
    d.drop_all_buffers.get_num_empty_buffers = 0 ∧
      d.drop_all_buffers.get_num_mapped_buffers = 0 := by
  unfold FrameDecoder.drop_all_buffers FrameDecoder.get_num_empty_buffers
    FrameDecoder.get_num_mapped_buffers
  rcases hq : d.empty_buffer_queue_.isEmpty with _ | _ <;>
    rcases hm : d.frame_buffer_map_.isEmpty with _ | _ <;>
      simp_all [List.isEmpty_iff]

/-- Claim C7: every call to `push_empty_buffer` increases the value returned
by `get_num_empty_buffers()` by exactly one. -/
theorem c7_push_empty_buffer_increments_count (d : FrameDecoder) (buffer_id : Int) :
    (d.push_empty_buffer buffer_id).get_num_empty_buffers = d.get_num_empty_buffers + 1 := by
  simp [FrameDecoder.push_empty_buffer, FrameDecoder.get_num_empty_buffers]

/-- Claim C10: `drop_all_buffers()` modifies only the empty buffer queue and
the frame buffer map — the frames-timed-out counter, the frame timeout, the
packet-logging setting, the registered buffer manager and the registered
ready callback are unchanged by the call. -/
theorem c10_drop_all_buffers_frame_condition (d : FrameDecoder) :
    d.drop_all_buffers.get_num_frames_timedout = d.get_num_frames_timedout ∧
      d.drop_all_buffers.get_frame_timeout_ms = d.get_frame_timeout_ms ∧
      d.drop_all_buffers.enable_packet_logging_ = d.enable_packet_logging_ ∧
      d.drop_all_buffers.buffer_manager_ = d.buffer_manager_ ∧
      d.drop_all_buffers.ready_callback_ = d.ready_callback_ := by
  unfold FrameDecoder.drop_all_buffers FrameDecoder.get_num_frames_timedout
    FrameDecoder.get_frame_timeout_ms
  rcases hq : d.empty_buffer_queue_.isEmpty with _ | _ <;>
    rcases hm : d.frame_buffer_map_.isEmpty with _ | _ <;> simp_all

/-- After pushing a list of ids, the empty buffer queue is the old queue
followed by the pushed ids in order. -/
theorem push_all_queue_eq (ids : List Int) :
    ∀ d : FrameDecoder, (d.push_all ids).empty_buffer_queue_ =
      d.empty_buffer_queue_ ++ ids := by
  induction ids with
  | nil => intro d; simp [FrameDecoder.push_all]
  | cons i t ih =>
    intro d
    have step : d.push_all (i :: t) = (d.push_empty_buffer i).push_all t := rfl
    rw [step, ih]
    simp [FrameDecoder.push_empty_buffer]

/-- Popping a queue as many times as it has elements returns exactly its
contents, front first. -/
theorem popN_eq_queue (l : List Int) :
    ∀ d : FrameDecoder, d.empty_buffer_queue_ = l → d.popN l.length = l := by
  induction l with
  | nil => intro d h; rfl
  | cons b rest ih =>
    intro d h
    have step : d.popN (rest.length + 1) =
        b :: FrameDecoder.popN { d with empty_buffer_queue_ := rest } rest.length := by
      simp [FrameDecoder.popN, FrameDecoder.pop_empty_buffer, h]
    simp only [List.length_cons, step, ih { d with empty_buffer_queue_ := rest } rfl]

/-- Claim C6: for every sequence of `push_empty_buffer(id)` calls (starting
from an empty queue) followed by slot acquisitions (pops of the empty buffer
queue) the buffer ids are returned in exactly the order they were pushed. -/
theorem c6_empty_buffer_queue_fifo (d : FrameDecoder) (ids : List Int)
    (h : d.empty_buffer_queue_ = []) :
    (d.push_all ids).popN ids.length = ids := by
  have hq : (d.push_all ids).empty_buffer_queue_ = ids := by
    rw [push_all_queue_eq, h]; rfl
  exact popN_eq_queue ids _ hq

/-- Witness for C6 at a concrete state and push sequence. -/
theorem c6_empty_buffer_queue_fifo_witness :
    (FrameDecoder.construct.push_all [3, 1, 2]).popN ([3, 1, 2] : List Int).length
      = [3, 1, 2] :=
  c6_empty_buffer_queue_fifo FrameDecoder.construct [3, 1, 2] rfl

/-- Claim C3: `init` takes each setting from the configuration message when
its key is present, keeps the current value when the key is absent, and
ignores unknown keys. -/
theorem c3_init_config_semantics (d : FrameDecoder) (msg : IpcMessage) :
    (∀ b, msg.params.lookup CONFIG_DECODER_ENABLE_PACKET_LOGGING =
        some (ParamValue.boolVal b) → (d.init msg).enable_packet_logging_ = b) ∧
    (msg.params.lookup CONFIG_DECODER_ENABLE_PACKET_LOGGING = none →
        (d.init msg).enable_packet_logging_ = d.enable_packet_logging_) ∧
    (∀ n, msg.params.lookup CONFIG_DECODER_FRAME_TIMEOUT_MS =
        some (ParamValue.natVal n) → (d.init msg).frame_timeout_ms_ = n) ∧
    (msg.params.lookup CONFIG_DECODER_FRAME_TIMEOUT_MS = none →
        (d.init msg).frame_timeout_ms_ = d.frame_timeout_ms_) ∧
    (∀ k v, k ≠ CONFIG_DECODER_ENABLE_PACKET_LOGGING →
        k ≠ CONFIG_DECODER_FRAME_TIMEOUT_MS →
        d.init ⟨(k, v) :: msg.params⟩ = d.init msg) := by
  refine ⟨?_, ?_, ?_, ?_, ?_⟩
  · intro b h
    simp [FrameDecoder.init, IpcMessage.get_param_bool, h]
  · intro h
    simp [FrameDecoder.init, IpcMessage.get_param_bool, h]
  · intro n h
    simp [FrameDecoder.init, IpcMessage.get_param_nat, h]
  · intro h
    simp [FrameDecoder.init, IpcMessage.get_param_nat, h]
  · intro k v hk1 hk2
    have h1 : (CONFIG_DECODER_ENABLE_PACKET_LOGGING == k) = false :=
      beq_eq_false_iff_ne.mpr (Ne.symm hk1)
    have h2 : (CONFIG_DECODER_FRAME_TIMEOUT_MS == k) = false :=
      beq_eq_false_iff_ne.mpr (Ne.symm hk2)
    simp [FrameDecoder.init, IpcMessage.get_param_bool, IpcMessage.get_param_nat,
      List.lookup, h1, h2]

/-- Witness for C3: present keys take the message values, an unknown key
changes nothing. -/
theorem c3_init_config_semantics_witness :
    (FrameDecoder.construct.init
        ⟨[(CONFIG_DECODER_ENABLE_PACKET_LOGGING, ParamValue.boolVal true),
          (CONFIG_DECODER_FRAME_TIMEOUT_MS, ParamValue.natVal 250)]⟩).enable_packet_logging_
        = true ∧
    (FrameDecoder.construct.init
        ⟨[(CONFIG_DECODER_ENABLE_PACKET_LOGGING, ParamValue.boolVal true),
          (CONFIG_DECODER_FRAME_TIMEOUT_MS, ParamValue.natVal 250)]⟩).frame_timeout_ms_
        = 250 ∧
    FrameDecoder.construct.init ⟨[("unknown_key", ParamValue.natVal 5)]⟩ =
      FrameDecoder.construct.init ⟨[]⟩ :=
  ⟨(c3_init_config_semantics FrameDecoder.construct
      ⟨[(CONFIG_DECODER_ENABLE_PACKET_LOGGING, ParamValue.boolVal true),
        (CONFIG_DECODER_FRAME_TIMEOUT_MS, ParamValue.natVal 250)]⟩).1 true (by decide),
   (c3_init_config_semantics FrameDecoder.construct
      ⟨[(CONFIG_DECODER_ENABLE_PACKET_LOGGING, ParamValue.boolVal true),
        (CONFIG_DECODER_FRAME_TIMEOUT_MS, ParamValue.natVal 250)]⟩).2.2.1 250 (by decide),
   (c3_init_config_semantics FrameDecoder.construct ⟨[]⟩).2.2.2.2 "unknown_key"
      (ParamValue.natVal 5) (by decide) (by decide)⟩

/-- Claim C2 fails on the code: in `DummyTCPFrameDecoder` — the decoder
implementation present in the source — `monitor_buffers()` has an empty
body.  At a concrete state whose single mapped entry has age 1000 ms at
observation time 1000 ms, exceeding the 100 ms timeout, the call neither
increments `frames_timedout_` by 1, nor removes the entry from the frame
buffer map, nor hands any frame to the ready callback. -/
theorem c2_monitor_buffers_counterexample :
    1000 - 0 > timed_out_decoder_example.frame_timeout_ms_ ∧
    timed_out_decoder_example.monitor_buffers.1.frames_timedout_ ≠
      timed_out_decoder_example.frames_timedout_ + 1 ∧
    timed_out_decoder_example.monitor_buffers.1.frame_buffer_map_.lookup 7 ≠ none ∧
    timed_out_decoder_example.monitor_buffers.2 = [] := by
  decide

/-- Claim C2 (amended): in the decoder implementation present in the source
(`DummyTCPFrameDecoder`), `monitor_buffers()` is a no-op — it leaves the
whole decoder state (in particular the frame buffer map and the
`frames_timedout_` counter) unchanged and hands no frame to the ready
callback, even when a mapped entry's age exceeds `frame_timeout_ms`. -/
theorem c2_monitor_buffers_noop (d : DummyTCPFrameDecoder) :
    d.monitor_buffers = (d, []) := rfl

/-- Claim C5 fails on the code: `DummyTCPFrameDecoder::process_message`
unconditionally returns `FrameReceiveStateComplete`, so at a concrete state
in which frame 5 has already been completed, a duplicate message for that
frame still yields `complete`, not `invalid`. -/
theorem c5_duplicate_message_counterexample :
    completed_frame_decoder_example.process_message 30 =
      FrameReceiveState.FrameReceiveStateComplete ∧
    FrameReceiveState.FrameReceiveStateComplete ≠
      FrameReceiveState.FrameReceiveStateInvalid := by
  decide

/-- Claim C5 (amended): in the decoder implementation present in the source
(`DummyTCPFrameDecoder`), `process_message` returns
`FrameReceiveStateComplete` for every decoder state and every received byte
count — duplicate messages for an already-completed frame included; no
input ever yields `invalid`. -/
theorem c5_process_message_always_complete (d : DummyTCPFrameDecoder)
    (bytes_received : Nat) :
    d.process_message bytes_received =
      FrameReceiveState.FrameReceiveStateComplete := rfl

/-- A lookup of a key just stored by `set_param` finds the stored value. -/
theorem lookup_set_param_self (msg : IpcMessage) (key : String) (v : ParamValue) :
    (msg.set_param key v).params.lookup key = some v := by
  unfold IpcMessage.set_param
  induction msg.params with
  | nil => simp [List.lookup]
  | cons p t ih =>
    by_cases heq : p.1 = key
    · simpa [List.filter_cons, heq] using ih
    · have hb : (p.1 != key) = true := bne_iff_ne.mpr heq
      have hb2 : (key == p.1) = false := beq_eq_false_iff_ne.mpr (Ne.symm heq)
      simp [List.filter_cons, hb, List.lookup, hb2, ih]

/-- A lookup of any other key is unchanged by `set_param`. -/
theorem lookup_set_param_other (msg : IpcMessage) (key k2 : String) (v : ParamValue)
    (h : k2 ≠ key) :
    (msg.set_param key v).params.lookup k2 = msg.params.lookup k2 := by
  unfold IpcMessage.set_param
  have hk : (k2 == key) = false := beq_eq_false_iff_ne.mpr h
  induction msg.params with
  | nil => simp [List.lookup, hk]
  | cons p t ih =>
    by_cases heq : p.1 = key
    · have hb2 : (k2 == p.1) = false := by
        rw [heq]; exact hk
      simp [List.filter_cons, heq, List.lookup, hb2, hk, ih]
    · have hb : (p.1 != key) = true := bne_iff_ne.mpr heq
      by_cases h2 : k2 = p.1
      · simp [List.filter_cons, hb, List.lookup, h2]
      · have hb2 : (k2 == p.1) = false := beq_eq_false_iff_ne.mpr h2
        simp [List.filter_cons, hb, List.lookup, hb2, ih]

/-- Appending to the same string on the left is cancellative. -/
theorem string_append_left_cancel (s a b : String) (h : s ++ a = s ++ b) : a = b := by
  cases a with
  | mk la =>
    cases b with
    | mk lb =>
      cases s with
      | mk ls =>
        have h2 : ls ++ la = ls ++ lb := congrArg String.data h
        exact congrArg String.mk (List.append_cancel_left h2)

/-- The two decoder configuration keys stay distinct under any common
prefix. -/
theorem config_keys_distinct (pfx : String) :
    pfx ++ CONFIG_DECODER_ENABLE_PACKET_LOGGING ≠
      pfx ++ CONFIG_DECODER_FRAME_TIMEOUT_MS := by
  intro h
  have hk : CONFIG_DECODER_ENABLE_PACKET_LOGGING = CONFIG_DECODER_FRAME_TIMEOUT_MS :=
    string_append_left_cancel pfx _ _ h
  exact absurd hk (by decide)

/-- Claim C4 fails on the code: at a concrete state with 7 frames timed out,
3 empty buffers and 1 mapped buffer, `request_configuration` produces a
reply holding exactly the two settings parameters; no parameter of the reply
carries any of the counter values. -/
theorem c4_request_configuration_counterexample :
    (c4_decoder_example.request_configuration "decoder_" ⟨[]⟩).params =
      [("decoder_" ++ CONFIG_DECODER_ENABLE_PACKET_LOGGING, ParamValue.boolVal true),
       ("decoder_" ++ CONFIG_DECODER_FRAME_TIMEOUT_MS, ParamValue.natVal 200)] ∧
    c4_decoder_example.get_num_frames_timedout = 7 ∧
    c4_decoder_example.get_num_empty_buffers = 3 ∧
    c4_decoder_example.get_num_mapped_buffers = 1 ∧
    ParamValue.natVal 7 ∉
      ((c4_decoder_example.request_configuration "decoder_" ⟨[]⟩).params.map Prod.snd) ∧
    ParamValue.natVal 3 ∉
      ((c4_decoder_example.request_configuration "decoder_" ⟨[]⟩).params.map Prod.snd) ∧
    ParamValue.natVal 1 ∉
      ((c4_decoder_example.request_configuration "decoder_" ⟨[]⟩).params.map Prod.snd) := by
  decide

/-- Claim C4 (amended): `request_configuration` populates the reply, under
the given parameter prefix, with the current settings
(`enable_packet_logging`, `frame_timeout_ms`) only; every other key of the
reply — counter keys included — is left exactly as in the incoming reply
message, so the counters (`frames_timedout_`, mapped/empty buffer counts)
are not reported by this method. -/
theorem c4_request_configuration_settings_only (d : FrameDecoder) (pfx : String)
    (reply : IpcMessage) :
    ((d.request_configuration pfx reply).params.lookup
        (pfx ++ CONFIG_DECODER_ENABLE_PACKET_LOGGING) =
      some (ParamValue.boolVal d.enable_packet_logging_)) ∧
    ((d.request_configuration pfx reply).params.lookup
        (pfx ++ CONFIG_DECODER_FRAME_TIMEOUT_MS) =
      some (ParamValue.natVal d.frame_timeout_ms_)) ∧
    (∀ k, k ≠ pfx ++ CONFIG_DECODER_ENABLE_PACKET_LOGGING →
        k ≠ pfx ++ CONFIG_DECODER_FRAME_TIMEOUT_MS →
        (d.request_configuration pfx reply).params.lookup k =
          reply.params.lookup k) := by
  refine ⟨?_, ?_, ?_⟩
  · unfold FrameDecoder.request_configuration
    rw [lookup_set_param_other _ _ _ _ (config_keys_distinct pfx)]
    exact lookup_set_param_self _ _ _
  · unfold FrameDecoder.request_configuration
    exact lookup_set_param_self _ _ _
  · intro k h1 h2
    unfold FrameDecoder.request_configuration
    rw [lookup_set_param_other _ _ _ _ h2, lookup_set_param_other _ _ _ _ h1]

/-- Witness for the amended C4 at a concrete decoder state, prefix and
reply. -/
theorem c4_request_configuration_settings_only_witness :
    ((c4_decoder_example.request_configuration "decoder_" ⟨[]⟩).params.lookup
        ("decoder_" ++ CONFIG_DECODER_ENABLE_PACKET_LOGGING) =
      some (ParamValue.boolVal true)) ∧
    ((c4_decoder_example.request_configuration "decoder_" ⟨[]⟩).params.lookup
        ("decoder_" ++ CONFIG_DECODER_FRAME_TIMEOUT_MS) =
      some (ParamValue.natVal 200)) ∧
    ((c4_decoder_example.request_configuration "decoder_" ⟨[]⟩).params.lookup
        "frames_timedout" = (⟨[]⟩ : IpcMessage).params.lookup "frames_timedout") :=
  ⟨(c4_request_configuration_settings_only c4_decoder_example "decoder_" ⟨[]⟩).1,
   (c4_request_configuration_settings_only c4_decoder_example "decoder_" ⟨[]⟩).2.1,
   (c4_request_configuration_settings_only c4_decoder_example "decoder_" ⟨[]⟩).2.2
     "frames_timedout" (by decide) (by decide)⟩

/-- Claim C8: `create(name)` on a name absent from the registry fails with
the `UnknownPluginName` configuration error and leaves the registry contents
unchanged; on a registered name it returns a new stage instance produced by
that name's factory (the registry again unchanged). -/
theorem c8_plugin_registry_create {Stage : Type} (r : PluginRegistry Stage)
    (name : String) :
    (r.entries.lookup name = none →
      r.create name = (Except.error (PluginError.UnknownPluginName name), r)) ∧
    (∀ factory, r.entries.lookup name = some factory →
      r.create name = (Except.ok (factory ()), r)) := by
  constructor
  · intro h
    simp [PluginRegistry.create, h]
  · intro factory h
    simp [PluginRegistry.create, h]

/-- Witness for C8 on the concrete registry holding the two registrations
visible in the source. -/
theorem c8_plugin_registry_create_witness :
    registry_example.create "UnknownName" =
      (Except.error (PluginError.UnknownPluginName "UnknownName"), registry_example) ∧
    registry_example.create "BloscPlugin" = (Except.ok 1, registry_example) :=
  ⟨(c8_plugin_registry_create registry_example "UnknownName").1 rfl,
   (c8_plugin_registry_create registry_example "BloscPlugin").2 (fun _ => 1) rfl⟩

/-- Helper invariant for C9: along any event interleaving, adjacent
same-acquisition frames use equal settings, and if the first recorded frame
belongs to the plugin's current acquisition it uses the plugin's current
settings. -/
theorem run_consistent (evs : List BloscEvent) :
    ∀ p : BloscPlugin,
      same_acquisition_same_settings (p.run evs) ∧
      (∀ a s l, p.run evs = (a, s) :: l →
        a = p.current_acquisition_ → s = p.compression_settings_) := by
  induction evs with
  | nil =>
    intro p
    refine ⟨trivial, ?_⟩
    intro a s l h
    simp [BloscPlugin.run] at h
  | cons e rest ih =>
    intro p
    cases e with
    | command s =>
      refine ⟨(ih (p.configure s)).1, ?_⟩
      intro a s2 l h ha
      exact (ih (p.configure s)).2 a s2 l h ha
    | frame a =>
      have hq : ((p.process_frame a).1.current_acquisition_ = a) ∧
          ((p.process_frame a).1.compression_settings_ = (p.process_frame a).2) := by
        by_cases hca : a = p.current_acquisition_
        · simp [BloscPlugin.process_frame, BloscPlugin.update_compression_settings, hca]
        · simp [BloscPlugin.process_frame, BloscPlugin.update_compression_settings, hca]
      have hrun : p.run (BloscEvent.frame a :: rest) =
          (a, (p.process_frame a).2) :: (p.process_frame a).1.run rest := rfl
      constructor
      · rcases hout : (p.process_frame a).1.run rest with _ | ⟨⟨a2, s2⟩, tl⟩
        · rw [hrun, hout]
          exact trivial
        · rw [hrun, hout]
          constructor
          · intro haa
            have hs := (ih (p.process_frame a).1).2 a2 s2 tl hout
              (by rw [hq.1, ← haa])
            rw [hs, hq.2]
          · have hch := (ih (p.process_frame a).1).1
            rw [hout] at hch
            exact hch
      · intro a2 s2 l h ha
        rw [hrun] at h
        simp only [List.cons.injEq, Prod.mk.injEq] at h
        obtain ⟨⟨ha2, hs2⟩, -⟩ := h
        have hca : a = p.current_acquisition_ := ha2.trans ha
        have hsame : (p.process_frame a).2 = p.compression_settings_ := by
          simp [BloscPlugin.process_frame, BloscPlugin.update_compression_settings, hca]
        rw [← hs2, hsame]

/-- Claim C9: along every event interleaving, no two adjacent frames of the
same acquisition are compressed with different settings; a commanded
settings change leaves the current settings and acquisition id untouched; a
frame of the current acquisition is compressed with the unchanged current
settings; and a frame with a new acquisition id atomically promotes the
commanded settings to current and is itself compressed with them. -/
theorem c9_blosc_settings_acquisition_boundary (p : BloscPlugin)
    (evs : List BloscEvent) :
    same_acquisition_same_settings (p.run evs) ∧
    (∀ s, (p.configure s).compression_settings_ = p.compression_settings_ ∧
      (p.configure s).current_acquisition_ = p.current_acquisition_) ∧
    (∀ a, a = p.current_acquisition_ →
      p.process_frame a = (p, p.compression_settings_)) ∧
    (∀ a, a ≠ p.current_acquisition_ →
      (p.process_frame a).1.compression_settings_ =
          p.commanded_compression_settings_ ∧
      (p.process_frame a).1.current_acquisition_ = a ∧
      (p.process_frame a).2 = p.commanded_compression_settings_) := by
  refine ⟨(run_consistent evs p).1, ?_, ?_, ?_⟩
  · intro s
    exact ⟨rfl, rfl⟩
  · intro a ha
    simp [BloscPlugin.process_frame, BloscPlugin.update_compression_settings, ha]
  · intro a ha
    simp [BloscPlugin.process_frame, BloscPlugin.update_compression_settings, ha]

/-- Witness for C9 on a concrete interleaving: a settings change commanded
mid-acquisition, a further frame of the same acquisition, then the first
frame of a new acquisition. -/
theorem c9_blosc_settings_acquisition_boundary_witness :
    same_acquisition_same_settings
      (blosc_plugin_example.run blosc_events_example) ∧
    blosc_plugin_example.process_frame "acq_1" =
      (blosc_plugin_example, blosc_settings_a) ∧
    ((blosc_plugin_example.configure blosc_settings_b).process_frame "acq_2").2 =
      blosc_settings_b :=
  ⟨(c9_blosc_settings_acquisition_boundary blosc_plugin_example
      blosc_events_example).1,
   (c9_blosc_settings_acquisition_boundary blosc_plugin_example
      blosc_events_example).2.2.1 "acq_1" rfl,
   ((c9_blosc_settings_acquisition_boundary
      (blosc_plugin_example.configure blosc_settings_b)
      blosc_events_example).2.2.2 "acq_2" (by decide)).2.2⟩

end Claims
